import Mathlib

/-!
Verification development for the BubbleOS Lite shell sources:
`src/classes/Errors.js`, `src/commands/mkfile.js`, and the command
dispatcher `intCmds`.  The JavaScript is shallowly embedded: `chalk`
styling functions are the identity on strings, `console.log`,
`InfoMessages.success`, the `Errors` catalog and `_fatalError` are
modelled as entries of an output trace, and the filesystem plus the
interactive input streams are explicit parameters.
-/

/-- A formatted error from `Errors.js`: `_interpretError(code, message)`
prints the bracketed code followed by the message.  We keep the pair and
derive the printed string from it. -/
structure FormattedError where
  code : Nat
  message : String
deriving DecidableEq, Repr

/-- The string `_interpretError` prints (chalk colouring dropped). -/
def FormattedError.rendered (e : FormattedError) : String :=
  "[" ++ toString e.code ++ "] " ++ e.message ++ "\n"

/-- Modelled from the spec: the product-name constant `GLOBAL_NAME` from
`src/variables/constants.js`, which is not among the provided sources; the
spec calls the product BubbleOS. -/
def GLOBAL_NAME : String := "BubbleOS"

namespace Errors

/-- Error 1 of `Errors.js` (`unrecognizedCommand`). -/
def unrecognizedCommand (command : String) : FormattedError :=
  ⟨1, "The command, \x27" ++ command ++
    "\x27, is unrecognized. Type \x27help\x27 for a list of available commands."⟩

/-- Error 2 of `Errors.js` (`enterParameter`). -/
def enterParameter (type exmpl : String) : FormattedError :=
  ⟨2, "You must enter " ++ type ++ ", for example, like so: \x27" ++ exmpl ++
    "\x27. (NO_PARAMS_ENTERED)"⟩

/-- Error 3 of `Errors.js` (`doesNotExist`). -/
def doesNotExist (type varbl : String) : FormattedError :=
  ⟨3, "The " ++ type ++ ", \x27" ++ varbl ++ "\x27, does not exist. (NON_EXISTENT)"⟩

/-- Error 4 of `Errors.js` (`noPermissions`). -/
def noPermissions (todo varbl : String) : FormattedError :=
  ⟨4, "Invalid permissions to " ++ todo ++ " \x27" ++ varbl ++
    "\x27. You need elevated privileges. (INVALID_PERMS)"⟩

/-- Error 5 of `Errors.js` (`inUse`). -/
def inUse (type varbl : String) : FormattedError :=
  ⟨5, "The " ++ type ++ ", \x27" ++ varbl ++ "\x27, is currently being used. (PATH_BUSY)"⟩

/-- Error 6 of `Errors.js` (`alreadyExists`). -/
def alreadyExists (type varbl : String) : FormattedError :=
  ⟨6, "The " ++ type ++ ", \x27" ++ varbl ++ "\x27, already exists. (PATH_EXISTS)"⟩

/-- Error 7 of `Errors.js` (`expectedFile`). -/
def expectedFile (varbl : String) : FormattedError :=
  ⟨7, "Expected a file, but got a directory (\x27" ++ varbl ++
    "\x27) instead. (PATH_IS_DIR)"⟩

/-- Error 8 of `Errors.js` (`expectedDir`). -/
def expectedDir (varbl : String) : FormattedError :=
  ⟨8, "Expected a directory, but got a file (\x27" ++ varbl ++
    "\x27) instead. (PATH_IS_NOT_DIR)"⟩

/-- Error 9 of `Errors.js` (`invalidOS`). -/
def invalidOS (os : String) : FormattedError :=
  ⟨9, "This command can only run on " ++ os ++ ". (INVALID_OS)"⟩

/-- Error 10 of `Errors.js` (`invalidEncoding`). -/
def invalidEncoding (encoding : String) : FormattedError :=
  ⟨10, "This command can only read " ++ encoding ++ " files. (INVALID_ENCODING)"⟩

/-- Error 11 of `Errors.js` (`invalidExtension`). -/
def invalidExtension (extension : String) : FormattedError :=
  ⟨11, "Only files ending with the \x27" ++ extension ++
    "\x27 extension can be used. (INVALID_EXTENSION)"⟩

/-- Error 12 of `Errors.js` (`invalidCharacters`). -/
def invalidCharacters (type supposedTo notContain varbl : String) : FormattedError :=
  ⟨12, "The " ++ type ++ " can only contain " ++ supposedTo ++ " and not contain " ++
    notContain ++ " (received \x27" ++ varbl ++ "\x27). (INVALID_CHARS)"⟩

/-- Error 13 of `Errors.js` (`pathTooLong`). -/
def pathTooLong (path : String) : FormattedError :=
  ⟨13, "The path (\x27" ++ path ++
    "\x27) is too long. Please choose a shorter path. (PATH_TOO_LONG)"⟩

/-- Error 14 of `Errors.js` (`dirToNonDir`). -/
def dirToNonDir : FormattedError :=
  ⟨14, "Cannot overwrite a directory with a non-directory. (COPY_DIR_TO_NON_DIR)"⟩

/-- Error 15 of `Errors.js` (`invalidUNCPath`). -/
def invalidUNCPath : FormattedError :=
  ⟨15, "UNC paths are currently unsupported by " ++ GLOBAL_NAME ++ ". (INVALID_UNC_PATH)"⟩

/-- Error 16 of `Errors.js` (`unknown`). -/
def unknown (toDo varbl : String) : FormattedError :=
  ⟨16, GLOBAL_NAME ++ " does not know how to " ++ toDo ++ " \x27" ++ varbl ++
    "\x27. (UNKNOWN)"⟩

end Errors

/-- A JavaScript exception value as far as the embedded code can observe
it: a filesystem error carries a string `code` property; a
`ReferenceError` raised by reading an undefined identifier carries none. -/
inductive JsError
  | fsError (code : String)
  | referenceError (varName : String)
deriving DecidableEq, Repr

/-- The `code` property of a thrown value: `undefined` (none) on a
`ReferenceError`. -/
def JsError.code : JsError → Option String
  | .fsError c => some c
  | .referenceError _ => none

/-- One entry of the observable output trace of a handler run. -/
inductive Output
  | error (e : FormattedError)
  | fatal (e : JsError)
  | success (msg : String)
  | log (msg : String)
deriving DecidableEq, Repr

/-- How a handler run ends: a normal return, an exception escaping the
handler, or blocking forever on interactive input (the modelled input
stream ran dry). -/
inductive Outcome
  | returned
  | threw (e : JsError)
  | blocked
deriving DecidableEq, Repr

/-- JavaScript's `String.prototype.startsWith`, written structurally on
the character list so that closed calls reduce inside the kernel. -/
def jsStartsWith (s p : String) : Bool :=
  p.data.isPrefixOf s.data

/-- JavaScript's `String.prototype.toUpperCase` (on the ASCII inputs the
shell deals in), written structurally on the character list so that
closed calls reduce inside the kernel. -/
def jsToUpperCase (s : String) : String :=
  String.mk (s.data.map Char.toUpper)

/-- The filesystem, as the embedded code observes it: file path to
contents. -/
def FsMap : Type := String → Option String

/-- Effect of a successful `fs.writeFileSync(p, c)`. -/
def fsWrite (fs : FsMap) (p c : String) : FsMap :=
  fun q => if q = p then some c else fs q

/-- Effect of a successful `fs.rmSync(p, { recursive, force })`. -/
def fsRemove (fs : FsMap) (p : String) : FsMap :=
  fun q => if q = p then none else fs q

/-- Oracle for the two fallible filesystem calls `mkfile` makes: `some c`
means the call raises a platform error whose `code` property is `c`;
`none` means it succeeds. -/
structure FsBehavior where
  rmResult : Option String
  writeResult : Option String

namespace Checks

/-- Modelled from the spec: `Checks.doesExist` of `src/classes/Checks.js`
(not among the provided sources) tests whether the path exists on the
filesystem. -/
def doesExist (fs : FsMap) (p : String) : Bool :=
  (fs p).isSome

/-- Modelled from the spec: `Checks.pathUNC` of `src/classes/Checks.js`
(not among the provided sources) recognises network-style UNC paths,
which begin with a double backslash. -/
def pathUNC (p : String) : Bool :=
  jsStartsWith p "\\\\"

end Checks

/-- The outer `catch (err)` of `mkfile` (`mkfile.js` lines 144-178):
classify the caught error by its `code` property.  The `EINVAL` branch
calls `Errors.invalidCharacters(..., dir)`, but `dir` is not defined
anywhere in `mkfile.js`; evaluating the argument raises a
`ReferenceError` before the report is made, and — the handler already
being inside its catch block — that exception escapes `mkfile`. -/
def outerCatch (file : String) (e : JsError) : List Output × Outcome :=
  if e.code = some "ENOENT" then
    ([Output.error (Errors.doesNotExist "file" file)], Outcome.returned)
  else if e.code = some "EPERM" then
    ([Output.error (Errors.noPermissions "make the file" file)], Outcome.returned)
  else if e.code = some "ENAMETOOLONG" then
    ([Output.error (Errors.pathTooLong file)], Outcome.returned)
  else if e.code = some "EINVAL" then
    ([], Outcome.threw (JsError.referenceError "dir"))
  else
    ([Output.fatal e], Outcome.returned)

/-- Result of one run of `mkfile` (or of its inner editor loop): the
output trace, how control ended, and the resulting filesystem. -/
structure MkfileResult where
  outputs : List Output
  outcome : Outcome
  fs : FsMap

/-- Prefix a result's output trace. -/
def withOuts (os : List Output) (r : MkfileResult) : MkfileResult :=
  ⟨os ++ r.outputs, r.outcome, r.fs⟩

/-- Result of the `!EDIT` branch of the editor loop (`mkfile.js` lines
120-138): the updated buffer, what remains of the two input streams, the
messages printed, and whether the run blocked on exhausted input. -/
structure EditStep where
  contents : List String
  rest : List String
  ints : List Int
  outs : List Output
  blocked : Bool

/-- The `!EDIT` branch of the editor loop (`mkfile.js` lines 120-138).
With an empty buffer it prints a notice without reading anything.
Otherwise it reads a line number from `questionInt`; if that number is
within `1..contents.length` it reads the replacement line (an empty entry
becomes a newline via `defaultInput`) and overwrites the selected slot,
else it prints the invalid-line-number notice. -/
def editBranch (contents : List String) (rest : List String) (ints : List Int) : EditStep :=
  if contents.length = 0 then
    ⟨contents, rest, ints, [Output.log "No previous input to edit.\n"], false⟩
  else
    match ints with
    | [] => ⟨contents, rest, ints, [], true⟩
    | k :: intsRest =>
      if 1 ≤ k ∧ k ≤ (contents.length : Int) then
        match rest with
        | [] => ⟨contents, [], intsRest, [], true⟩
        | raw :: rest2 =>
          let newLine := if raw = "" then "\n" else raw
          ⟨contents.set (k - 1).toNat newLine, rest2, intsRest,
            [Output.log ("Line " ++ toString k ++ " has been updated.\n")], false⟩
      else ⟨contents, rest, intsRest, [Output.log "Invalid line number.\n"], false⟩

/-- The line-accumulation loop of `mkfile` (`mkfile.js` lines 101-143).
Each iteration reads one line; `!SAVE` writes the newline-joined buffer
and returns (a failing write is classified by the outer catch), `!CANCEL`
returns without writing, `!EDIT` runs the lines-120-138 branch (spelt out
inline here so the recursion is structural; `editBranch` above packages
the same branch and `editorLoop_edit_step` below proves the two agree),
and anything else is appended to the buffer verbatim.  Sentinel
comparison uses `toUpperCase`. -/
def editorLoop (file : String) (silent : Bool) (fsB : FsBehavior)
    (contents : List String) (inputs : List String) (ints : List Int)
    (fs : FsMap) : MkfileResult :=
  match inputs with
  | [] => ⟨[], Outcome.blocked, fs⟩
  | input :: rest =>
    if jsToUpperCase input = "!SAVE" then
      match fsB.writeResult with
      | none =>
        let fs2 := fsWrite fs file (String.intercalate "\n" contents)
        if silent then ⟨[Output.log ""], Outcome.returned, fs2⟩
        else
          ⟨[Output.success ("Successfully made the file " ++ file ++ ".")],
            Outcome.returned, fs2⟩
      | some c =>
        let oc := outerCatch file (JsError.fsError c)
        ⟨oc.1, oc.2, fs⟩
    else if jsToUpperCase input = "!CANCEL" then
      ⟨[Output.log "Edits discarded and process aborted."], Outcome.returned, fs⟩
    else if jsToUpperCase input = "!EDIT" then
      if contents.length = 0 then
        withOuts [Output.log "No previous input to edit.\n"]
          (editorLoop file silent fsB contents rest ints fs)
      else
        match ints with
        | [] => ⟨[], Outcome.blocked, fs⟩
        | k :: intsRest =>
          if 1 ≤ k ∧ k ≤ (contents.length : Int) then
            match rest with
            | [] => ⟨[], Outcome.blocked, fs⟩
            | raw :: rest2 =>
              withOuts [Output.log ("Line " ++ toString k ++ " has been updated.\n")]
                (editorLoop file silent fsB
                  (contents.set (k - 1).toNat (if raw = "" then "\n" else raw))
                  rest2 intsRest fs)
          else
            withOuts [Output.log "Invalid line number.\n"]
              (editorLoop file silent fsB contents rest intsRest fs)
    else
      editorLoop file silent fsB (contents ++ [input]) rest ints fs

/-- The banner `mkfile` prints before entering the editor loop
(`mkfile.js` lines 93-99, chalk styling dropped). -/
def editorInstructions : String :=
  "Add the content of the new file. Type \x27!SAVE\x27 to save changes, " ++
    "\x27!CANCEL\x27 to discard, or \x27!EDIT\x27 to modify previous input:\n"

/-- The tail of `mkfile` once the existing-file prompt (if any) is past
(`mkfile.js` lines 87-143): reject UNC paths, print the editor banner,
run the editor loop. -/
def mkfileAfterExists (fs : FsMap) (file : String) (silent : Bool)
    (fsB : FsBehavior) (inputs : List String) (ints : List Int)
    (pre : List Output) : MkfileResult :=
  if Checks.pathUNC file then
    ⟨pre ++ [Output.error Errors.invalidUNCPath], Outcome.returned, fs⟩
  else
    withOuts (pre ++ [Output.log editorInstructions])
      (editorLoop file silent fsB [] inputs ints fs)

/-- The `mkfile` handler (`mkfile.js` lines 37-180).  Parameters: the
filesystem, the already-normalised target path (`none` when the
parameter is missing — the path helpers `_parseDoubleQuotes`,
`_convertAbsolute` and `_caseSenstivePath` resolve to an absolute path
and are outside the provided sources), the `-s` flag, the answer the
user gives `_promptForYN`, the filesystem-call oracle, and the
`question`/`questionInt` input streams.

When the target exists and the user confirms deletion, a failing
`fs.rmSync` lands in a `catch` clause that binds no error variable
(`mkfile.js` line 70); the `err.code` read inside it raises a
`ReferenceError` which the outer catch handles, and since that error has
no `code` property every documented branch misses and `_fatalError` runs
(modelled from the spec: `_fatalError`, outside the provided sources,
surfaces the raw message as the catch-all report). -/
def mkfile (fs : FsMap) (fileArg : Option String) (silent : Bool)
    (promptAnswer : Bool) (fsB : FsBehavior) (inputs : List String)
    (ints : List Int) : MkfileResult :=
  match fileArg with
  | none =>
    ⟨[Output.error (Errors.enterParameter "a file" "mkfile test.txt")],
      Outcome.returned, fs⟩
  | some file =>
    if Checks.doesExist fs file then
      if promptAnswer then
        match fsB.rmResult with
        | some _ =>
          ⟨[Output.fatal (JsError.referenceError "err")], Outcome.returned, fs⟩
        | none =>
          mkfileAfterExists (fsRemove fs file) file silent fsB inputs ints
            [Output.success ("Successfully deleted " ++ file ++ ".")]
      else ⟨[Output.log "Process aborted.\n"], Outcome.returned, fs⟩
    else mkfileAfterExists fs file silent fsB inputs ints []

/-- The built-in command a dispatched line is routed to — one constructor
per branch of the `intCmds` chain, plus the unrecognized-command branch
and the silent fall-through taken on an empty line. -/
inductive CmdAction
  | exit | help | cd | ls | sysinfo | taskkill | cls | mkdir | exec | about
  | mkfile | readfile | copyfile | print | userinfo | wcount | del | tasklist
  | size | rename | time | history | fif | cwd | ifnet | date | bub
  | unrecognized
  | noMatch
deriving DecidableEq, Repr

/-- Modelled from the spec: `_errorInterpret` (`src/functions/errorInt.js`,
not among the provided sources) renders the numbered error catalog entry;
index 1 is the unrecognized-command kind — the same kind as
`Errors.unrecognizedCommand`, code 1 — carrying the offending line. -/
def errorInterpretOne (command : String) : FormattedError :=
  Errors.unrecognizedCommand command

/-- What one call of the dispatcher produces: whether the empty-line
report (`_errorInterpret(0)`) fired, the selected action, the
unrecognized-command report if any, the history afterwards, and whether
the invoked handler threw an exception out of the dispatcher. -/
structure DispatchResult where
  emptyReport : Bool
  action : CmdAction
  report : Option FormattedError
  hist : List String
  threw : Bool
deriving Repr

/-- The prefix-selection chain of `intCmds` (`part_000` lines 50-112),
written exactly in declaration order, with `jsStartsWith` for each
`command.startsWith(...)` test of the source; the final `else` reports
the unrecognized command when the line is non-empty. -/
def dispatchSelect (command : String) (isEmpty : Bool) : CmdAction × Option FormattedError :=
  if jsStartsWith command "exit" then (CmdAction.exit, none)
  else if jsStartsWith command "help" then (CmdAction.help, none)
  else if jsStartsWith command "cd" then (CmdAction.cd, none)
  else if jsStartsWith command "ls" then (CmdAction.ls, none)
  else if jsStartsWith command "sysinfo" then (CmdAction.sysinfo, none)
  else if jsStartsWith command "taskkill" then (CmdAction.taskkill, none)
  else if jsStartsWith command "cls" then (CmdAction.cls, none)
  else if jsStartsWith command "mkdir" then (CmdAction.mkdir, none)
  else if jsStartsWith command "exec" then (CmdAction.exec, none)
  else if jsStartsWith command "about" then (CmdAction.about, none)
  else if jsStartsWith command "mkfile" then (CmdAction.mkfile, none)
  else if jsStartsWith command "readfile" then (CmdAction.readfile, none)
  else if jsStartsWith command "copyfile" then (CmdAction.copyfile, none)
  else if jsStartsWith command "print" then (CmdAction.print, none)
  else if jsStartsWith command "userinfo" then (CmdAction.userinfo, none)
  else if jsStartsWith command "wcount" then (CmdAction.wcount, none)
  else if jsStartsWith command "del" then (CmdAction.del, none)
  else if jsStartsWith command "tasklist" then (CmdAction.tasklist, none)
  else if jsStartsWith command "size" then (CmdAction.size, none)
  else if jsStartsWith command "rename" then (CmdAction.rename, none)
  else if jsStartsWith command "time" then (CmdAction.time, none)
  else if jsStartsWith command "history" then (CmdAction.history, none)
  else if jsStartsWith command "fif" then (CmdAction.fif, none)
  else if jsStartsWith command "cwd" then (CmdAction.cwd, none)
  else if jsStartsWith command "ifnet" then (CmdAction.ifnet, none)
  else if jsStartsWith command "date" then (CmdAction.date, none)
  else if jsStartsWith command "bub" then (CmdAction.bub, none)
  else if ¬isEmpty then (CmdAction.unrecognized, some (errorInterpretOne command))
  else (CmdAction.noMatch, none)

/-- Whether the branch `intCmds` selects for a line invokes a handler
that throws: the unrecognized branch and the empty-line fall-through call
no handler at all, so only table actions consult the handler-behavior
oracle `ht`. -/
def actionThrows (ht : CmdAction → Bool) : CmdAction → Bool
  | CmdAction.unrecognized => false
  | CmdAction.noMatch => false
  | a => ht a

/-- The dispatcher `intCmds` of `part_000` (lines 47-115): fire the
empty-line report when `isEmpty`, run the selection chain — invoking the
selected handler — then, on any non-empty line, append the raw line to
history (modelled from the spec: `_addToHist` of
`src/commands/history.js`, not among the provided sources, appends the
raw command string in arrival order).  The `_addToHist(command)` call on
line 114 runs only if the invoked handler returns control: `ht` is an
oracle saying which handlers throw on this line (the EINVAL bug shows
the mkfile handler really can), and when the selected one throws, the
exception escapes `intCmds` — the `threw` flag — and the append is
skipped.  An `exit` line hands off to an external shutdown collaborator
and is out of scope here. -/
def intCmds (command : String) (isEmpty : Bool) (hist : List String)
    (ht : CmdAction → Bool) : DispatchResult :=
  let sel := dispatchSelect command isEmpty
  let throws := actionThrows ht sel.1
  ⟨isEmpty, sel.1, sel.2,
    if throws then hist else if ¬isEmpty then hist ++ [command] else hist,
    throws⟩

/-- Handler-behavior oracle under which every handler returns normally. -/
def returningHandlers : CmdAction → Bool := fun _ => false

/-- Handler-behavior oracle under which the mkfile handler throws — the
EINVAL save failure's undefined `dir` makes this reachable in the
source — and every other handler returns. -/
def mkfileThrows : CmdAction → Bool
  | CmdAction.mkfile => true
  | _ => false

/-- The command table of `intCmds`, one `(prefix, action)` pair per
branch, in the source's declaration order. -/
def commandTable : List (String × CmdAction) :=
  [("exit", CmdAction.exit), ("help", CmdAction.help), ("cd", CmdAction.cd),
    ("ls", CmdAction.ls), ("sysinfo", CmdAction.sysinfo), ("taskkill", CmdAction.taskkill),
    ("cls", CmdAction.cls), ("mkdir", CmdAction.mkdir), ("exec", CmdAction.exec),
    ("about", CmdAction.about), ("mkfile", CmdAction.mkfile), ("readfile", CmdAction.readfile),
    ("copyfile", CmdAction.copyfile), ("print", CmdAction.print), ("userinfo", CmdAction.userinfo),
    ("wcount", CmdAction.wcount), ("del", CmdAction.del), ("tasklist", CmdAction.tasklist),
    ("size", CmdAction.size), ("rename", CmdAction.rename), ("time", CmdAction.time),
    ("history", CmdAction.history), ("fif", CmdAction.fif), ("cwd", CmdAction.cwd),
    ("ifnet", CmdAction.ifnet), ("date", CmdAction.date), ("bub", CmdAction.bub)]

/-- First declaration-order entry of the command table whose prefix is a
literal prefix of the line. -/
def firstMatch (command : String) : Option CmdAction :=
  (commandTable.find? (fun e => jsStartsWith command e.1)).map Prod.snd

/-- An empty example filesystem. -/
def fs0 : FsMap := fun _ => none

/-- An example filesystem holding one file, `a.txt`. -/
def fsA : FsMap := fsWrite fs0 "a.txt" "old contents"

/-- The selection chain is exactly declaration-order first-prefix-match
over the command table. -/
theorem dispatchSelect_eq_firstMatch (command : String) (isEmpty : Bool) :
    dispatchSelect command isEmpty =
      match firstMatch command with
      | some a => (a, none)
      | none =>
        if ¬isEmpty then (CmdAction.unrecognized, some (errorInterpretOne command))
        else (CmdAction.noMatch, none) := by
  unfold dispatchSelect firstMatch commandTable
  simp only [List.find?]
  cases h1 : jsStartsWith command "exit"
  · cases h2 : jsStartsWith command "help"
    · cases h3 : jsStartsWith command "cd"
      · cases h4 : jsStartsWith command "ls"
        · cases h5 : jsStartsWith command "sysinfo"
          · cases h6 : jsStartsWith command "taskkill"
            · cases h7 : jsStartsWith command "cls"
              · cases h8 : jsStartsWith command "mkdir"
                · cases h9 : jsStartsWith command "exec"
                  · cases h10 : jsStartsWith command "about"
                    · cases h11 : jsStartsWith command "mkfile"
                      · cases h12 : jsStartsWith command "readfile"
                        · cases h13 : jsStartsWith command "copyfile"
                          · cases h14 : jsStartsWith command "print"
                            · cases h15 : jsStartsWith command "userinfo"
                              · cases h16 : jsStartsWith command "wcount"
                                · cases h17 : jsStartsWith command "del"
                                  · cases h18 : jsStartsWith command "tasklist"
                                    · cases h19 : jsStartsWith command "size"
                                      · cases h20 : jsStartsWith command "rename"
                                        · cases h21 : jsStartsWith command "time"
                                          · cases h22 : jsStartsWith command "history"
                                            · cases h23 : jsStartsWith command "fif"
                                              · cases h24 : jsStartsWith command "cwd"
                                                · cases h25 : jsStartsWith command "ifnet"
                                                  · cases h26 : jsStartsWith command "date"
                                                    · cases h27 : jsStartsWith command "bub"
                                                      · cases isEmpty <;> rfl
                                                      · rfl
                                                    · rfl
                                                  · rfl
                                                · rfl
                                              · rfl
                                            · rfl
                                          · rfl
                                        · rfl
                                      · rfl
                                    · rfl
                                  · rfl
                                · rfl
                              · rfl
                            · rfl
                          · rfl
                        · rfl
                      · rfl
                    · rfl
                  · rfl
                · rfl
              · rfl
            · rfl
          · rfl
        · rfl
      · rfl
    · rfl
  · rfl

/-- Stepping the editor loop on an `!EDIT` input agrees with the factored
`editBranch` packaging of `mkfile.js` lines 120-138. -/
theorem editorLoop_edit_step (file : String) (silent : Bool) (fsB : FsBehavior)
    (contents : List String) (input : String) (rest : List String) (ints : List Int)
    (fs : FsMap) (hs : jsToUpperCase input = "!EDIT") :
    editorLoop file silent fsB contents (input :: rest) ints fs =
      if (editBranch contents rest ints).blocked then
        ⟨(editBranch contents rest ints).outs, Outcome.blocked, fs⟩
      else
        withOuts (editBranch contents rest ints).outs
          (editorLoop file silent fsB (editBranch contents rest ints).contents
            (editBranch contents rest ints).rest (editBranch contents rest ints).ints fs) := by
  have h1 : ¬(jsToUpperCase input = "!SAVE") := by rw [hs]; decide
  have h2 : ¬(jsToUpperCase input = "!CANCEL") := by rw [hs]; decide
  cases ints with
  | nil =>
    cases rest <;> by_cases hc : contents.length = 0 <;>
      simp [editorLoop, editBranch, hs, h1, h2, hc, withOuts]
  | cons k irest =>
    cases rest <;> by_cases hc : contents.length = 0 <;>
      by_cases hk : 1 ≤ k ∧ k ≤ (contents.length : Int) <;>
      simp [editorLoop, editBranch, hs, h1, h2, hc, hk, withOuts]

/-- Non-sentinel input lines are appended to the buffer verbatim, in
arrival order. -/
theorem editorLoop_text_lines (file : String) (silent : Bool) (fsB : FsBehavior)
    (lines : List String) (c rest : List String) (ints : List Int) (fs : FsMap)
    (h : ∀ l ∈ lines, jsToUpperCase l ≠ "!SAVE" ∧ jsToUpperCase l ≠ "!CANCEL" ∧
      jsToUpperCase l ≠ "!EDIT") :
    editorLoop file silent fsB c (lines ++ rest) ints fs =
      editorLoop file silent fsB (c ++ lines) rest ints fs := by
  induction lines generalizing c with
  | nil => simp
  | cons l ls ih =>
    obtain ⟨h1, h2, h3⟩ := h l (by simp)
    rw [List.cons_append]
    have step : editorLoop file silent fsB c (l :: (ls ++ rest)) ints fs =
        editorLoop file silent fsB (c ++ [l]) (ls ++ rest) ints fs := by
      cases ints <;> cases hsh : ls ++ rest <;> simp [editorLoop, h1, h2, h3]
    rw [step, ih (c ++ [l]) (fun x hx => h x (by simp [hx]))]
    simp

/-- C1: the per-operation error mapping of `mkfile` is broken on the
overwrite-delete step.  When `fs.rmSync` fails with EPERM (documented
mapping: `noPermissions`) or EBUSY (documented mapping: `inUse`), the
handler instead emits the catch-all fatal report: the inner catch clause
binds no error variable, so reading `err.code` raises a `ReferenceError`
that falls through every documented branch of the outer catch. -/
theorem mkfile_delete_error_hits_fatal :
    mkfile fsA (some "a.txt") false true ⟨some "EPERM", none⟩ [] [] =
      ⟨[Output.fatal (JsError.referenceError "err")], Outcome.returned, fsA⟩ ∧
    mkfile fsA (some "a.txt") false true ⟨some "EBUSY", none⟩ [] [] =
      ⟨[Output.fatal (JsError.referenceError "err")], Outcome.returned, fsA⟩ :=
  ⟨rfl, rfl⟩

/-- C2 counterexample: a create attempt failing with EINVAL does not
produce the `pathTooLong` ErrorKind (code 13); the run's only output is
the editor banner, no ErrorKind is reported at all, and the handler ends
by throwing a `ReferenceError` from the invalid-characters branch. -/
theorem mkfile_einval_not_pathTooLong :
    (mkfile fs0 (some "b.txt") false false ⟨none, some "EINVAL"⟩ ["!SAVE"] []).outputs =
      [Output.log editorInstructions] ∧
    Output.error (Errors.pathTooLong "b.txt") ∉
      (mkfile fs0 (some "b.txt") false false ⟨none, some "EINVAL"⟩ ["!SAVE"] []).outputs ∧
    (mkfile fs0 (some "b.txt") false false ⟨none, some "EINVAL"⟩ ["!SAVE"] []).outcome =
      Outcome.threw (JsError.referenceError "dir") :=
  ⟨by decide, by decide, by decide⟩

/-- C2 (amended): a create failure with ENAMETOOLONG is reported as the
`pathTooLong` ErrorKind, code 13 (never `invalidCharacters`, code 12); a
create failure with EINVAL is not mapped to `pathTooLong` but enters the
invalid-characters branch, which — because the `dir` argument it passes
is an undefined binding — raises a `ReferenceError` before any report is
made. -/
theorem mkfile_classifier_pathTooLong_amended (file : String) :
    outerCatch file (JsError.fsError "ENAMETOOLONG") =
      ([Output.error (Errors.pathTooLong file)], Outcome.returned) ∧
    (Errors.pathTooLong file).code = 13 ∧
    (Errors.invalidCharacters "directory name" "valid path characters"
      "characters such as \x27?\x27 or \x27:\x27 (Windows only)" file).code = 12 ∧
    outerCatch file (JsError.fsError "EINVAL") =
      ([], Outcome.threw (JsError.referenceError "dir")) :=
  ⟨rfl, rfl, rfl, rfl⟩

/-- C3: the `mkfile` handler does not resolve every failure internally:
when the save step fails with EINVAL, the `ReferenceError` raised by the
undefined `dir` in the invalid-characters branch escapes the handler
instead of being printed as a single report. -/
theorem mkfile_einval_escapes_handler :
    (mkfile fs0 (some "c.txt") false false ⟨none, some "EINVAL"⟩
        ["line one", "!SAVE"] []).outcome =
      Outcome.threw (JsError.referenceError "dir") ∧
    (mkfile fs0 (some "c.txt") false false ⟨none, some "EINVAL"⟩
        ["line one", "!SAVE"] []).outputs = [Output.log editorInstructions] :=
  ⟨by decide, by decide⟩

/-- C4: on a non-empty line the dispatcher selects the handler of the
first command-table entry, in declaration order, whose prefix is a
literal (case-sensitive) prefix of the line, with no token-boundary
check; a line matching no entry selects the unrecognized-command
branch. -/
theorem intCmds_first_prefix_dispatch (command : String) (hist : List String)
    (ht : CmdAction → Bool) (h : command ≠ "") :
    (intCmds command false hist ht).action =
      match firstMatch command with
      | some a => a
      | none => CmdAction.unrecognized := by
  have e := dispatchSelect_eq_firstMatch command false
  have ha : (intCmds command false hist ht).action = (dispatchSelect command false).1 := rfl
  rw [ha, e]
  cases firstMatch command <;> simp

/-- C4 witness: `cdabc` is non-empty, satisfies the theorem, and indeed
dispatches to the `cd` handler with no token boundary after `cd`. -/
theorem intCmds_first_prefix_dispatch_witness :
    "cdabc" ≠ "" ∧
    ((intCmds "cdabc" false [] returningHandlers).action =
      match firstMatch "cdabc" with
      | some a => a
      | none => CmdAction.unrecognized) ∧
    (intCmds "cdabc" false [] returningHandlers).action = CmdAction.cd :=
  ⟨by decide, intCmds_first_prefix_dispatch "cdabc" [] returningHandlers (by decide),
    by decide⟩

/-- C5: a non-empty line matching no command-table prefix makes the
dispatcher report the unrecognized-command kind (code 1) carrying the
offending line, and the raw line is still appended to history. -/
theorem intCmds_unrecognized_report (command : String) (hist : List String)
    (ht : CmdAction → Bool) (hne : command ≠ "") (hnm : firstMatch command = none) :
    (intCmds command false hist ht).report = some (Errors.unrecognizedCommand command) ∧
    (Errors.unrecognizedCommand command).code = 1 ∧
    (intCmds command false hist ht).hist = hist ++ [command] := by
  have e := dispatchSelect_eq_firstMatch command false
  rw [hnm] at e
  have hsel : dispatchSelect command false =
      (CmdAction.unrecognized, some (errorInterpretOne command)) := by
    rw [e]; simp
  refine ⟨?_, rfl, ?_⟩
  · simp [intCmds, hsel, errorInterpretOne]
  · simp [intCmds, hsel, actionThrows]

/-- C5 witness: `frobnicate` matches no table prefix; the dispatcher
reports code 1 with the line and appends it to history — the branch
invokes no handler, so this holds under any handler-behavior oracle,
here the one where mkfile throws. -/
theorem intCmds_unrecognized_report_witness :
    "frobnicate" ≠ "" ∧ firstMatch "frobnicate" = none ∧
    ((intCmds "frobnicate" false ["ls"] mkfileThrows).report =
        some (Errors.unrecognizedCommand "frobnicate") ∧
      (Errors.unrecognizedCommand "frobnicate").code = 1 ∧
      (intCmds "frobnicate" false ["ls"] mkfileThrows).hist = ["ls"] ++ ["frobnicate"]) :=
  ⟨by decide, by decide,
    intCmds_unrecognized_report "frobnicate" ["ls"] mkfileThrows (by decide) (by decide)⟩

/-- C6 counterexample: dispatching `ls`, `mkfile b?.txt`, `cd x` over an
empty prior history, with the mkfile handler throwing — which the EINVAL
bug makes reachable — leaves history `["ls", "cd x"]`: the line whose
handler threw never reaches the `_addToHist` call, so the history is not
the prior history extended by exactly the three lines. -/
theorem intCmds_history_drops_thrown_line :
    (intCmds "cd x" false
        (intCmds "mkfile b?.txt" false
          (intCmds "ls" false [] mkfileThrows).hist mkfileThrows).hist
        mkfileThrows).hist = ["ls", "cd x"] ∧
    (intCmds "mkfile b?.txt" false
        (intCmds "ls" false [] mkfileThrows).hist mkfileThrows).threw = true ∧
    (["ls", "cd x"] : List String) ≠ [] ++ ["ls", "mkfile b?.txt", "cd x"] :=
  ⟨by decide, by decide, by decide⟩

/-- C6 (amended): history is append-only and preserves arrival order for
every dispatched line whose selected handler returns control: dispatching
three non-empty lines whose handlers return — whether or not each line
matched a command, and whether its handler succeeded or reported an
error — extends the prior history by exactly those three raw lines in
order.  Moreover no dispatch ever removes or mutates an existing entry:
every call leaves history either unchanged or extended by the one raw
line.  A line whose handler throws is dropped from history. -/
theorem intCmds_history_append_returning (hist : List String) (a b c : String)
    (ht : CmdAction → Bool)
    (ha : actionThrows ht (dispatchSelect a false).1 = false)
    (hb : actionThrows ht (dispatchSelect b false).1 = false)
    (hc : actionThrows ht (dispatchSelect c false).1 = false) :
    (intCmds c false (intCmds b false (intCmds a false hist ht).hist ht).hist ht).hist =
      hist ++ [a, b, c] ∧
    (∀ (l : String) (isEmpty : Bool) (ht2 : CmdAction → Bool) (h0 : List String),
      (intCmds l isEmpty h0 ht2).hist = h0 ∨
        (intCmds l isEmpty h0 ht2).hist = h0 ++ [l]) := by
  constructor
  · simp [intCmds, ha, hb, hc]
  · intro l isEmpty ht2 h0
    by_cases hthrow : actionThrows ht2 (dispatchSelect l isEmpty).1 = true
    · left; simp [intCmds, hthrow]
    · cases isEmpty
      · right; simp [intCmds, hthrow]
      · left; simp [intCmds, hthrow]

/-- C6 witness: under the oracle where only the mkfile handler throws,
the lines `ls`, `frobnicate`, `cd x` all select returning branches, and
dispatching them over the prior history `["pwd"]` appends exactly the
three raw lines in order. -/
theorem intCmds_history_append_returning_witness :
    (actionThrows mkfileThrows (dispatchSelect "ls" false).1 = false ∧
      actionThrows mkfileThrows (dispatchSelect "frobnicate" false).1 = false ∧
      actionThrows mkfileThrows (dispatchSelect "cd x" false).1 = false) ∧
    (intCmds "cd x" false
        (intCmds "frobnicate" false
          (intCmds "ls" false ["pwd"] mkfileThrows).hist mkfileThrows).hist
        mkfileThrows).hist = ["pwd"] ++ ["ls", "frobnicate", "cd x"] :=
  ⟨⟨by decide, by decide, by decide⟩,
    (intCmds_history_append_returning ["pwd"] "ls" "frobnicate" "cd x" mkfileThrows
      (by decide) (by decide) (by decide)).1⟩

/-- C7: saving a buffer of editor lines writes them joined by single
newlines, with no trailing newline: creating a fresh file with any
non-sentinel lines followed by `!SAVE` makes reading the file back yield
exactly the newline-join of those lines, and the handler returns
normally. -/
theorem mkfile_editor_save_roundtrip (fs : FsMap) (file : String) (silent pa : Bool)
    (rm : Option String) (lines : List String) (ints : List Int)
    (hnew : fs file = none) (hunc : Checks.pathUNC file = false)
    (h : ∀ l ∈ lines, jsToUpperCase l ≠ "!SAVE" ∧ jsToUpperCase l ≠ "!CANCEL" ∧
      jsToUpperCase l ≠ "!EDIT") :
    (mkfile fs (some file) silent pa ⟨rm, none⟩ (lines ++ ["!SAVE"]) ints).fs file =
      some (String.intercalate "\n" lines) ∧
    (mkfile fs (some file) silent pa ⟨rm, none⟩ (lines ++ ["!SAVE"]) ints).outcome =
      Outcome.returned := by
  have hd : Checks.doesExist fs file = false := by
    simp [Checks.doesExist, hnew]
  have hmk : mkfile fs (some file) silent pa ⟨rm, none⟩ (lines ++ ["!SAVE"]) ints =
      mkfileAfterExists fs file silent ⟨rm, none⟩ (lines ++ ["!SAVE"]) ints [] := by
    simp [mkfile, hd]
  have hloop := editorLoop_text_lines file silent ⟨rm, none⟩ lines [] ["!SAVE"] ints fs h
  have hsave : editorLoop file silent ⟨rm, none⟩ ([] ++ lines) ["!SAVE"] ints fs =
      ⟨if silent then [Output.log ""] else
          [Output.success ("Successfully made the file " ++ file ++ ".")],
        Outcome.returned, fsWrite fs file (String.intercalate "\n" ([] ++ lines))⟩ := by
    cases ints <;> cases silent <;>
      simp [editorLoop, show jsToUpperCase "!SAVE" = "!SAVE" from by decide]
  rw [hmk]
  unfold mkfileAfterExists
  rw [if_neg (by simp [hunc])]
  constructor
  · show (withOuts ([] ++ [Output.log editorInstructions])
        (editorLoop file silent ⟨rm, none⟩ [] (lines ++ ["!SAVE"]) ints fs)).fs file = _
    rw [hloop, hsave]
    simp [withOuts, fsWrite]
  · show (withOuts ([] ++ [Output.log editorInstructions])
        (editorLoop file silent ⟨rm, none⟩ [] (lines ++ ["!SAVE"]) ints fs)).outcome = _
    rw [hloop, hsave]
    simp [withOuts]

/-- C7 witness: the hypotheses hold for the fresh file `a.txt` and the
lines `alpha`, `beta`, and the round trip reads back exactly the
two lines joined by one newline. -/
theorem mkfile_editor_save_roundtrip_witness :
    (fs0 "a.txt" = none ∧ Checks.pathUNC "a.txt" = false ∧
      ∀ l ∈ (["alpha", "beta"] : List String), jsToUpperCase l ≠ "!SAVE" ∧
        jsToUpperCase l ≠ "!CANCEL" ∧ jsToUpperCase l ≠ "!EDIT") ∧
    (mkfile fs0 (some "a.txt") false false ⟨none, none⟩
        (["alpha", "beta"] ++ ["!SAVE"]) []).fs "a.txt" = some "alpha\nbeta" := by
  refine ⟨⟨rfl, by decide, by decide⟩, ?_⟩
  have hrt := (mkfile_editor_save_roundtrip fs0 "a.txt" false false none
    ["alpha", "beta"] [] rfl (by decide) (by decide)).1
  rw [hrt]
  rfl

/-- C8: the `!EDIT` branch with a 1-based line number inside the buffer
bounds replaces exactly the chosen line and keeps every other line and
the buffer length; an out-of-range number on a non-empty buffer leaves
the buffer unchanged and prints the invalid-line-number notice; on an
empty buffer it leaves the buffer unchanged and prints the
no-previous-input notice.  None of these cases blocks or reports a fatal
error. -/
theorem editBranch_edit_line (contents : List String) (k : Int) (raw : String)
    (rest2 : List String) (irest : List Int) :
    (contents ≠ [] → 1 ≤ k → k ≤ (contents.length : Int) →
      ((editBranch contents (raw :: rest2) (k :: irest)).contents.length =
          contents.length ∧
        (editBranch contents (raw :: rest2) (k :: irest)).contents[(k - 1).toNat]? =
          some (if raw = "" then "\n" else raw) ∧
        (∀ j : Nat, j ≠ (k - 1).toNat →
          (editBranch contents (raw :: rest2) (k :: irest)).contents[j]? =
            contents[j]?) ∧
        (editBranch contents (raw :: rest2) (k :: irest)).blocked = false)) ∧
    (contents ≠ [] → ¬(1 ≤ k ∧ k ≤ (contents.length : Int)) →
      ((editBranch contents (raw :: rest2) (k :: irest)).contents = contents ∧
        (editBranch contents (raw :: rest2) (k :: irest)).outs =
          [Output.log "Invalid line number.\n"] ∧
        (editBranch contents (raw :: rest2) (k :: irest)).blocked = false)) ∧
    ((editBranch ([] : List String) (raw :: rest2) (k :: irest)).contents = [] ∧
      (editBranch ([] : List String) (raw :: rest2) (k :: irest)).outs =
        [Output.log "No previous input to edit.\n"] ∧
      (editBranch ([] : List String) (raw :: rest2) (k :: irest)).blocked = false) := by
  refine ⟨?_, ?_, ?_⟩
  · intro hne h1 h2
    have hc : ¬(contents.length = 0) := by
      simpa [List.length_eq_zero] using hne
    have hb : editBranch contents (raw :: rest2) (k :: irest) =
        ⟨contents.set (k - 1).toNat (if raw = "" then "\n" else raw), rest2, irest,
          [Output.log ("Line " ++ toString k ++ " has been updated.\n")], false⟩ := by
      simp [editBranch, hc, h1, h2]
    have hlt : (k - 1).toNat < contents.length := by omega
    rw [hb]
    exact ⟨by simp, List.getElem?_set_self hlt,
      fun j hj => List.getElem?_set_ne (Ne.symm hj), rfl⟩
  · intro hne hk
    have hc : ¬(contents.length = 0) := by
      simpa [List.length_eq_zero] using hne
    refine ⟨?_, ?_, ?_⟩ <;> simp [editBranch, hc, hk]
  · refine ⟨?_, ?_, ?_⟩ <;> simp [editBranch]

/-- C8 witness: on the two-line buffer `alpha`, `beta`, editing line 2 to
`gamma` rewrites exactly slot 2, while requesting line 5 leaves the
buffer unchanged with the invalid-line-number notice. -/
theorem editBranch_edit_line_witness :
    ((["alpha", "beta"] : List String) ≠ [] ∧ (1 : Int) ≤ 2 ∧
      (2 : Int) ≤ ((["alpha", "beta"] : List String).length : Int) ∧
      (editBranch ["alpha", "beta"] ["gamma"] [2]).contents[((2 : Int) - 1).toNat]? =
        some (if "gamma" = "" then "\n" else "gamma")) ∧
    (¬((1 : Int) ≤ 5 ∧ (5 : Int) ≤ ((["alpha", "beta"] : List String).length : Int)) ∧
      (editBranch ["alpha", "beta"] ["x"] [5]).contents = ["alpha", "beta"] ∧
      (editBranch ["alpha", "beta"] ["x"] [5]).outs =
        [Output.log "Invalid line number.\n"]) := by
  refine ⟨⟨by decide, by decide, by decide, ?_⟩, ⟨by decide, ?_, ?_⟩⟩
  · exact ((editBranch_edit_line ["alpha", "beta"] 2 "gamma" [] []).1
      (by decide) (by decide) (by decide)).2.1
  · exact ((editBranch_edit_line ["alpha", "beta"] 5 "x" [] []).2.1
      (by decide) (by decide)).1
  · exact ((editBranch_edit_line ["alpha", "beta"] 5 "x" [] []).2.1
      (by decide) (by decide)).2.1

/-- C9: invoking `mkfile` on an existing file and declining the overwrite
prompt is a pure no-op on the filesystem: the run's entire output is the
neutral aborted notice (no ErrorKind, no fatal), the handler returns, and
the original contents are untouched. -/
theorem mkfile_decline_overwrite (fs : FsMap) (file c0 : String) (silent : Bool)
    (fsB : FsBehavior) (inputs : List String) (ints : List Int)
    (h : fs file = some c0) :
    mkfile fs (some file) silent false fsB inputs ints =
      ⟨[Output.log "Process aborted.\n"], Outcome.returned, fs⟩ ∧
    (mkfile fs (some file) silent false fsB inputs ints).fs file = some c0 := by
  have hd : Checks.doesExist fs file = true := by simp [Checks.doesExist, h]
  constructor
  · simp [mkfile, hd]
  · simp [mkfile, hd, h]

/-- C9 witness: declining the prompt for the existing `a.txt` leaves its
old contents in place and prints only the aborted notice. -/
theorem mkfile_decline_overwrite_witness :
    fsA "a.txt" = some "old contents" ∧
    (mkfile fsA (some "a.txt") false false ⟨none, none⟩ ["x"] [] =
        ⟨[Output.log "Process aborted.\n"], Outcome.returned, fsA⟩ ∧
      (mkfile fsA (some "a.txt") false false ⟨none, none⟩ ["x"] []).fs "a.txt" =
        some "old contents") :=
  ⟨by decide,
    mkfile_decline_overwrite fsA "a.txt" "old contents" false ⟨none, none⟩ ["x"] []
      (by decide)⟩

/-- C10: confirming the overwrite prompt deletes the existing file before
the editor loop starts, so cancelling afterwards writes nothing and the
original file stays deleted: the resulting filesystem is exactly the
prior one with the file removed, and the handler returns normally. -/
theorem mkfile_confirm_overwrite_cancel (fs : FsMap) (file c0 : String) (silent : Bool)
    (wr : Option String) (rest : List String) (ints : List Int)
    (h : fs file = some c0) (hunc : Checks.pathUNC file = false) :
    (mkfile fs (some file) silent true ⟨none, wr⟩ ("!CANCEL" :: rest) ints).fs =
      fsRemove fs file ∧
    (mkfile fs (some file) silent true ⟨none, wr⟩ ("!CANCEL" :: rest) ints).fs file =
      none ∧
    (mkfile fs (some file) silent true ⟨none, wr⟩ ("!CANCEL" :: rest) ints).outcome =
      Outcome.returned := by
  have hd : Checks.doesExist fs file = true := by simp [Checks.doesExist, h]
  have hc1 : ¬(jsToUpperCase "!CANCEL" = "!SAVE") := by decide
  have hc2 : jsToUpperCase "!CANCEL" = "!CANCEL" := by decide
  have hmk : mkfile fs (some file) silent true ⟨none, wr⟩ ("!CANCEL" :: rest) ints =
      mkfileAfterExists (fsRemove fs file) file silent ⟨none, wr⟩
        ("!CANCEL" :: rest) ints
        [Output.success ("Successfully deleted " ++ file ++ ".")] := by
    simp [mkfile, hd]
  have hloop : editorLoop file silent ⟨none, wr⟩ [] ("!CANCEL" :: rest) ints
      (fsRemove fs file) =
      ⟨[Output.log "Edits discarded and process aborted."], Outcome.returned,
        fsRemove fs file⟩ := by
    cases ints <;> cases rest <;> simp [editorLoop, hc1, hc2]
  rw [hmk]
  unfold mkfileAfterExists
  rw [if_neg (by simp [hunc])]
  rw [hloop]
  exact ⟨rfl, by simp [withOuts, fsRemove], rfl⟩

/-- C10 witness: for the existing `a.txt`, confirming the overwrite and
then cancelling leaves the filesystem without the file — the original
contents are gone although nothing was saved. -/
theorem mkfile_confirm_overwrite_cancel_witness :
    fsA "a.txt" = some "old contents" ∧ Checks.pathUNC "a.txt" = false ∧
    (mkfile fsA (some "a.txt") false true ⟨none, none⟩ ["!CANCEL"] []).fs "a.txt" =
      none :=
  ⟨by decide, by decide,
    (mkfile_confirm_overwrite_cancel fsA "a.txt" "old contents" false none [] []
      (by decide) (by decide)).2.1⟩
